import Mathlib

/-!
Verification development for the WinDeklar editable-scene module
(`WinDeklar/EditableScene.py`).

The Python module is shallowly embedded over exact rational arithmetic:
every numeric value of the source (Python floats) is modelled as a `ℚ`, a
2-D point as `ℚ × ℚ`, and a Python dict as an association list from
`String` keys to a `Val` payload.  `math.hypot`/`math.sqrt` are modelled
by `ratSqrt`, a computable rational square root that agrees with the real
square root on perfect squares; every square-root value inspected by a
theorem below is of a perfect square, where the model is exact.
-/

namespace WinDeklar

/-- Models `math.sqrt` on rationals; exact whenever the argument is the
square of a rational (see `ratSqrt_sq`), which covers every point at which
the theorems below evaluate it. -/
def ratSqrt (q : ℚ) : ℚ :=
  mkRat (Nat.sqrt q.num.toNat) (Nat.sqrt q.den)

/-- Models `math.hypot(x, y) = sqrt(x*x + y*y)`. -/
def hypot (x y : ℚ) : ℚ :=
  ratSqrt (x * x + y * y)

/-- The model square root inverts squaring of nonnegative rationals, as
the real square root does. -/
lemma ratSqrt_sq (q : ℚ) (h : 0 ≤ q) : ratSqrt (q * q) = q := by
  have hq : 0 ≤ q.num := Rat.num_nonneg.mpr h
  have h1 : q.num = (q.num.toNat : ℤ) := (Int.toNat_of_nonneg hq).symm
  unfold ratSqrt
  rw [Rat.mul_self_num q, Rat.mul_self_den q]
  rw [h1]
  rw [show ((q.num.toNat : ℤ) * (q.num.toNat : ℤ)).toNat = q.num.toNat * q.num.toNat by
    rw [← Nat.cast_mul, Int.toNat_natCast]]
  rw [Nat.sqrt_eq, Nat.sqrt_eq]
  rw [← h1, Rat.mkRat_self]

lemma hypot_self_zero (x y : ℚ) (hx : x = 0) (hy : y = 0) : hypot x y = 0 := by
  subst hx hy
  have h := ratSqrt_sq 0 le_rfl
  simpa [hypot] using h

/-- Embeds `scale(distance, scale_factor)`: meters to pixels. -/
def scale (distance scale_factor : ℚ) : ℚ :=
  distance * scale_factor

/-- Embeds `de_scale(distance, scale_factor)`: pixels to meters. -/
def de_scale (distance scale_factor : ℚ) : ℚ :=
  distance / scale_factor

/-- Embeds `point_to_pixel_point(point, scale_factor)`. -/
def point_to_pixel_point (point : ℚ × ℚ) (scale_factor : ℚ) : ℚ × ℚ :=
  (scale point.1 scale_factor, scale point.2 scale_factor)

/-- Embeds `pixel_point_to_point(q_point, scale_factor, translate)`. -/
def pixel_point_to_point (q_point : ℚ × ℚ) (scale_factor : ℚ) (translate : ℚ × ℚ) : ℚ × ℚ :=
  (de_scale (q_point.1 + translate.1) scale_factor,
   de_scale (q_point.2 + translate.2) scale_factor)

/-- Embeds `distance_in_pixels(p1, p2) = math.hypot(p1.x-p2.x, p1.y-p2.y)`. -/
def distance_in_pixels (p1 p2 : ℚ × ℚ) : ℚ :=
  hypot (p1.1 - p2.1) (p1.2 - p2.2)

/-- Embeds `translate_pixel_point(p, translation)`. -/
def translate_pixel_point (p translation : ℚ × ℚ) : ℚ × ℚ :=
  (p.1 + translation.1, p.2 + translation.2)

/-- Embeds `difference_pixel_point(p1, p2)`. -/
def difference_pixel_point (p1 p2 : ℚ × ℚ) : ℚ × ℚ :=
  (p1.1 - p2.1, p1.2 - p2.2)

/-- Embeds `middle_pixel_point(p1, p2)`. -/
def middle_pixel_point (p1 p2 : ℚ × ℚ) : ℚ × ℚ :=
  ((p1.1 + p2.1) / 2, (p1.2 + p2.2) / 2)

/-- The squared segment length `d2 = px*px + py*py` computed by both
`distance_to_segment` and `project_point_to_segment`. -/
def seg_d2 (p1 p2 : ℚ × ℚ) : ℚ :=
  (p2.1 - p1.1) * (p2.1 - p1.1) + (p2.2 - p1.2) * (p2.2 - p1.2)

/-- The projection parameter `u = ((x3-x1)*px + (y3-y1)*py) / d2` computed
by both `distance_to_segment` and `project_point_to_segment` (meaningful
only when `seg_d2 p1 p2` is nonzero). -/
def proj_u (p1 p2 p3 : ℚ × ℚ) : ℚ :=
  ((p3.1 - p1.1) * (p2.1 - p1.1) + (p3.2 - p1.2) * (p2.2 - p1.2)) / seg_d2 p1 p2

lemma seg_d2_nonneg (p1 p2 : ℚ × ℚ) : 0 ≤ seg_d2 p1 p2 := by
  have h1 : 0 ≤ (p2.1 - p1.1) * (p2.1 - p1.1) := mul_self_nonneg _
  have h2 : 0 ≤ (p2.2 - p1.2) * (p2.2 - p1.2) := mul_self_nonneg _
  unfold seg_d2
  linarith

/-- Embeds `distance_to_segment(p1, p2, p3)`: distance from `p3` to the segment
`[p1, p2]`; an epsilon guard handles near-coincident endpoints, and the
sentinel `999999.0` is returned when the projection falls off the segment. -/
def distance_to_segment (p1 p2 p3 : ℚ × ℚ) : ℚ :=
  let x1 := p1.1; let y1 := p1.2
  let x2 := p2.1; let y2 := p2.2
  let x3 := p3.1; let y3 := p3.2
  let px := x2 - x1
  let py := y2 - y1
  let d2 := px * px + py * py
  if |d2| < 1 / 10000 then
    -- p1 and p2 are too close, just return distance from p1 to p3
    hypot (x1 - x3) (y1 - y3)
  else
    let u := ((x3 - x1) * px + (y3 - y1) * py) / d2
    if u < 0 ∨ u > 1 then
      999999
    else
      let x := x1 + u * px
      let y := y1 + u * py
      hypot (x - x3) (y - y3)

/-- Embeds `project_point_to_segment(p1, p2, p3, in_segment)`: projection of `p3`
onto the segment (or, when `in_segment` is false, the infinite line)
through `p1` and `p2`; near-coincident endpoints return `p1`. -/
def project_point_to_segment (p1 p2 p3 : ℚ × ℚ) (in_segment : Bool := true) : ℚ × ℚ :=
  let x1 := p1.1; let y1 := p1.2
  let x2 := p2.1; let y2 := p2.2
  let x3 := p3.1; let y3 := p3.2
  let px := x2 - x1
  let py := y2 - y1
  let d2 := px * px + py * py
  if |d2| < 1 / 10000 then
    -- segment too short (p1, p2)
    p1
  else
    let u0 := ((x3 - x1) * px + (y3 - y1) * py) / d2
    let u := if in_segment then (if u0 > 1 then 1 else if u0 < 0 then 0 else u0) else u0
    let x := x1 + u * px
    let y := y1 + u * py
    let dx := x - x3
    let dy := y - y3
    (x3 + dx, y3 + dy)

/-- Embeds `get_point_at_t(p1, p2, t)`: parametric point on the line through
`p1` and `p2`. -/
def get_point_at_t (p1 p2 : ℚ × ℚ) (t : ℚ) : ℚ × ℚ :=
  (p1.1 + (p2.1 - p1.1) * t, p1.2 + (p2.2 - p1.2) * t)

/-- Embeds `point_in_line_at_distance(a, point, d, sign)`. -/
def point_in_line_at_distance (a : ℚ) (point : ℚ × ℚ) (d : ℚ) (sign : ℚ) : ℚ × ℚ :=
  let x1 := point.1; let y1 := point.2
  let x2 := x1 + sign * d / ratSqrt (1 + a * a)
  let y2 := a * (x2 - x1) + y1
  (x2, y2)

/-- Embeds `perpendicular_slope(slope)`; the source returns the float `inf` for a
near-zero slope, which has no rational counterpart — that branch is
unreachable from every call site reasoned about below (the axis-aligned
cases are short-circuited first), so it is mapped to `0`. -/
def perpendicular_slope (slope : ℚ) : ℚ :=
  if |slope| > 1 / 100000 then -1 / slope else 0

/-- Embeds `line_slope_equation(p1, p2)`: returns `(a, b)` of `y = a*x + b`;
`a` is `none` for a vertical line (and `b` is also `none` when the two
points coincide within the epsilon). -/
def line_slope_equation (p1 p2 : ℚ × ℚ) (near_zero_value : ℚ := 1 / 10000) :
    Option ℚ × Option ℚ :=
  let diff_xs := p2.1 - p1.1
  let diff_ys := p2.2 - p1.2
  if |diff_xs| < near_zero_value then
    if |diff_ys| < near_zero_value then
      -- both points are the same, no line can be defined
      (none, none)
    else
      -- it is a vertical line
      (none, some p2.1)
  else
    let a := diff_ys / diff_xs
    (some a, some (p1.2 - a * p1.1))

/-- Embeds `near_zero(number, precision=0.001)`. -/
def near_zero (number : ℚ) (precision : ℚ := 1 / 1000) : Bool :=
  |number| < precision

/-- Embeds `is_vertical_line(p1, p2)`. -/
def is_vertical_line (p1 p2 : ℚ × ℚ) : Bool :=
  near_zero (p1.1 - p2.1)

/-- Embeds `is_horizontal_line(p1, p2)`. -/
def is_horizontal_line (p1 p2 : ℚ × ℚ) : Bool :=
  near_zero (p1.2 - p2.2)

/-- Embeds `similar_values(l1, l2, precision=0.08)`. -/
def similar_values (l1 l2 : ℚ) (precision : ℚ := 8 / 100) : Bool :=
  |l1 - l2| ≤ precision

/-- Embeds `relation_sign(x1, x2)`. -/
def relation_sign (x1 x2 : ℚ) : ℚ :=
  if x1 < x2 then 1 else if x1 > x2 then -1 else 0

/-- Embeds `perpendicular_points_from_segment(p1, p2, d)`: the two points
perpendicular to the segment at `p2`, separated `d` from it. -/
def perpendicular_points_from_segment (p1 p2 : ℚ × ℚ) (d : ℚ) : (ℚ × ℚ) × (ℚ × ℚ) :=
  let x2 := p2.1; let y2 := p2.2
  if is_horizontal_line p1 p2 then
    ((x2, y2 + d), (x2, y2 - d))
  else if is_vertical_line p1 p2 then
    ((x2 + d, y2), (x2 - d, y2))
  else
    let a := ((line_slope_equation p1 p2).1).getD 0
    let a90 := perpendicular_slope a
    (point_in_line_at_distance a90 (x2, y2) d (-1),
     point_in_line_at_distance a90 (x2, y2) d 1)

/-- Embeds `rectangle_from_line(p1, p2, width)`: the four vertices of the
rectangle whose center line is `p1, p2` with half-width `width`;
returns `(p21, p22, p12, p11)` exactly as the source does. -/
def rectangle_from_line (p1 p2 : ℚ × ℚ) (width : ℚ) :
    (ℚ × ℚ) × (ℚ × ℚ) × (ℚ × ℚ) × (ℚ × ℚ) :=
  let pp2 := perpendicular_points_from_segment p1 p2 width
  let pp1 := perpendicular_points_from_segment p2 p1 width
  (pp2.1, pp2.2, pp1.2, pp1.1)

/-- Embeds `parallel_segments(p1, p2, distance)`: the two segments parallel to
segment `p1, p2` at `distance`; the source destructures the rectangle as
`p21, p22, p11, p12` (in that order) and returns `[[p11, p22], [p12, p21]]`. -/
def parallel_segments (p1 p2 : ℚ × ℚ) (distance : ℚ) :
    List ((ℚ × ℚ) × (ℚ × ℚ)) :=
  let r := rectangle_from_line p1 p2 distance
  let p21 := r.1
  let p22 := r.2.1
  let p11 := r.2.2.1
  let p12 := r.2.2.2
  [(p11, p22), (p12, p21)]

/-! ## Claims about the geometry kernel -/

/-- C4: `de_scale(scale(x, f), f) == x` for every `x` and every `f ≠ 0`:
`scale` multiplies by the factor, `de_scale` divides by it, and the
round-trip is the identity (arithmetic is modelled exactly over `ℚ`). -/
theorem de_scale_scale_roundTrip (x f : ℚ) (h : f ≠ 0) :
    de_scale (scale x f) f = x := by
  unfold de_scale scale
  exact mul_div_cancel_right₀ x h

theorem de_scale_scale_roundTrip_witness :
    (7 : ℚ) ≠ 0 ∧ de_scale (scale 3 7) 7 = 3 :=
  ⟨by norm_num, de_scale_scale_roundTrip 3 7 (by norm_num)⟩

/-- C2 counterexample: the claim asserts the sentinel for every segment
with *distinct* endpoints, but the epsilon guard fires whenever the squared
length is below `0.0001` even for distinct endpoints.  With `p1 = (0,0)`,
`p2 = (1/1000, 0)`, `p3 = (1, 0)` the endpoints are distinct and the
projection parameter is `1000 > 1`, yet the function returns the distance
from `p1` to `p3` (which is `1`), not the sentinel `999999.0`. -/
theorem distance_to_segment_offSegment_cex :
    ((0 : ℚ), (0 : ℚ)) ≠ ((1 : ℚ) / 1000, (0 : ℚ)) ∧
    1 < proj_u ((0 : ℚ), (0 : ℚ)) ((1 : ℚ) / 1000, (0 : ℚ)) ((1 : ℚ), (0 : ℚ)) ∧
    distance_to_segment ((0 : ℚ), (0 : ℚ)) ((1 : ℚ) / 1000, (0 : ℚ)) ((1 : ℚ), (0 : ℚ)) = 1 ∧
    (1 : ℚ) ≠ 999999 := by
  refine ⟨?_, ?_, ?_, by norm_num⟩
  · simp only [ne_eq, Prod.mk.injEq, not_and]
    intro h
    norm_num at h
  · norm_num [proj_u, seg_d2]
  · norm_num [distance_to_segment, hypot, abs_lt]
    have h := ratSqrt_sq 1 (by norm_num)
    simpa using h

/-- C2 (amended to segments whose squared length is at least the `0.0001`
epsilon, so the near-coincident guard is not taken): when the projection
parameter `u` lies in `[0,1]`, `distance_to_segment` returns the distance
from `p3` to the foot of the perpendicular `(x1 + u*px, y1 + u*py)` — in
particular exactly `0` for every point on the segment — and when `u` falls
outside `[0,1]` it returns the sentinel `999999.0`. -/
theorem distance_to_segment_spec (p1 p2 p3 : ℚ × ℚ)
    (h : 1 / 10000 ≤ seg_d2 p1 p2) :
    (0 ≤ proj_u p1 p2 p3 → proj_u p1 p2 p3 ≤ 1 →
      distance_to_segment p1 p2 p3 =
        hypot (p1.1 + proj_u p1 p2 p3 * (p2.1 - p1.1) - p3.1)
              (p1.2 + proj_u p1 p2 p3 * (p2.2 - p1.2) - p3.2)) ∧
    (proj_u p1 p2 p3 < 0 ∨ 1 < proj_u p1 p2 p3 →
      distance_to_segment p1 p2 p3 = 999999) ∧
    (∀ t : ℚ, 0 ≤ t → t ≤ 1 → p3 = get_point_at_t p1 p2 t →
      distance_to_segment p1 p2 p3 = 0) := by
  have hd2 : 0 ≤ seg_d2 p1 p2 := seg_d2_nonneg p1 p2
  have habs : ¬ (|seg_d2 p1 p2| < 1 / 10000) := by
    rw [abs_of_nonneg hd2]
    exact not_lt.mpr h
  have hne : seg_d2 p1 p2 ≠ 0 := by
    intro h0
    rw [h0] at h
    norm_num at h
  unfold distance_to_segment
  simp only []
  rw [if_neg (by simpa [seg_d2] using habs)]
  have hu : ((p3.1 - p1.1) * (p2.1 - p1.1) + (p3.2 - p1.2) * (p2.2 - p1.2)) /
      ((p2.1 - p1.1) * (p2.1 - p1.1) + (p2.2 - p1.2) * (p2.2 - p1.2)) = proj_u p1 p2 p3 := by
    unfold proj_u seg_d2
    rfl
  rw [hu]
  refine ⟨?_, ?_, ?_⟩
  · intro h0 h1
    rw [if_neg (by push_neg; exact ⟨h0, h1⟩)]
  · intro hout
    rw [if_pos hout]
  · intro t ht0 ht1 hp3
    have hnum : (p3.1 - p1.1) * (p2.1 - p1.1) + (p3.2 - p1.2) * (p2.2 - p1.2)
        = t * seg_d2 p1 p2 := by
      rw [hp3]
      unfold get_point_at_t seg_d2
      ring
    have hut : proj_u p1 p2 p3 = t := by
      unfold proj_u
      rw [hnum, mul_div_assoc, div_self hne, mul_one]
    rw [hut, if_neg (by push_neg; exact ⟨ht0, ht1⟩)]
    apply hypot_self_zero
    · rw [hp3]
      unfold get_point_at_t
      ring
    · rw [hp3]
      unfold get_point_at_t
      ring

theorem distance_to_segment_spec_witness :
    (1 : ℚ) / 10000 ≤ seg_d2 ((0 : ℚ), (0 : ℚ)) ((1 : ℚ), (0 : ℚ)) ∧
    distance_to_segment ((0 : ℚ), (0 : ℚ)) ((1 : ℚ), (0 : ℚ)) ((2 : ℚ), (0 : ℚ)) = 999999 := by
  have h : (1 : ℚ) / 10000 ≤ seg_d2 ((0 : ℚ), (0 : ℚ)) ((1 : ℚ), (0 : ℚ)) := by
    norm_num [seg_d2]
  refine ⟨h, (distance_to_segment_spec _ _ _ h).2.1 (Or.inr (by norm_num [proj_u, seg_d2]))⟩

/-- C3 counterexample: the claim asserts clamping (for `in_segment=True`)
and extrapolation (for `in_segment=False`) for every pair of
*non-coincident* endpoints, but the epsilon guard returns `p1` whenever the
squared length is below `0.0001` even for distinct endpoints.  With
`p1 = (0,0)`, `p2 = (1/1000, 0)`, `p3 = (1, 0)` the claim would give the
clamped result `p2 = (1/1000, 0)` resp. the extrapolated `(1, 0)`, yet both
calls return `p1 = (0, 0)`. -/
theorem project_point_to_segment_cex :
    ((0 : ℚ), (0 : ℚ)) ≠ ((1 : ℚ) / 1000, (0 : ℚ)) ∧
    1 < proj_u ((0 : ℚ), (0 : ℚ)) ((1 : ℚ) / 1000, (0 : ℚ)) ((1 : ℚ), (0 : ℚ)) ∧
    project_point_to_segment ((0 : ℚ), (0 : ℚ)) ((1 : ℚ) / 1000, (0 : ℚ)) ((1 : ℚ), (0 : ℚ)) true
      = ((0 : ℚ), (0 : ℚ)) ∧
    ((0 : ℚ), (0 : ℚ)) ≠ ((1 : ℚ) / 1000, (0 : ℚ)) ∧
    project_point_to_segment ((0 : ℚ), (0 : ℚ)) ((1 : ℚ) / 1000, (0 : ℚ)) ((1 : ℚ), (0 : ℚ)) false
      = ((0 : ℚ), (0 : ℚ)) ∧
    ((0 : ℚ), (0 : ℚ)) ≠ ((1 : ℚ), (0 : ℚ)) := by
  have hne : ((0 : ℚ), (0 : ℚ)) ≠ ((1 : ℚ) / 1000, (0 : ℚ)) := by
    simp only [ne_eq, Prod.mk.injEq, not_and]
    intro h
    norm_num at h
  refine ⟨hne, by norm_num [proj_u, seg_d2], ?_, hne, ?_, ?_⟩
  · norm_num [project_point_to_segment, abs_lt]
  · norm_num [project_point_to_segment, abs_lt]
  · simp only [ne_eq, Prod.mk.injEq, not_and]
    intro h
    norm_num at h

/-- C3 (amended to segments whose squared length is at least the `0.0001`
epsilon, so the near-coincident guard is not taken):
`project_point_to_segment` with `in_segment=True` clamps the projection
parameter to `[0,1]` before computing the projected point — a point
projecting beyond `p2` maps to `p2`, one projecting before `p1` maps to
`p1` — while with `in_segment=False` it uses the unclamped parameter,
extrapolating along the infinite line through `p1` and `p2`. -/
theorem project_point_to_segment_spec (p1 p2 p3 : ℚ × ℚ)
    (h : 1 / 10000 ≤ seg_d2 p1 p2) :
    project_point_to_segment p1 p2 p3 false =
      (p1.1 + proj_u p1 p2 p3 * (p2.1 - p1.1), p1.2 + proj_u p1 p2 p3 * (p2.2 - p1.2)) ∧
    (1 < proj_u p1 p2 p3 → project_point_to_segment p1 p2 p3 true = p2) ∧
    (proj_u p1 p2 p3 < 0 → project_point_to_segment p1 p2 p3 true = p1) ∧
    (0 ≤ proj_u p1 p2 p3 → proj_u p1 p2 p3 ≤ 1 →
      project_point_to_segment p1 p2 p3 true = project_point_to_segment p1 p2 p3 false) := by
  have hd2 : 0 ≤ seg_d2 p1 p2 := seg_d2_nonneg p1 p2
  have hnabs : ¬ (|(p2.1 - p1.1) * (p2.1 - p1.1) + (p2.2 - p1.2) * (p2.2 - p1.2)| < 1 / 10000) := by
    rw [show (p2.1 - p1.1) * (p2.1 - p1.1) + (p2.2 - p1.2) * (p2.2 - p1.2) = seg_d2 p1 p2 from rfl]
    rw [abs_of_nonneg hd2]
    exact not_lt.mpr h
  have hu : ((p3.1 - p1.1) * (p2.1 - p1.1) + (p3.2 - p1.2) * (p2.2 - p1.2)) /
      ((p2.1 - p1.1) * (p2.1 - p1.1) + (p2.2 - p1.2) * (p2.2 - p1.2)) = proj_u p1 p2 p3 := by
    unfold proj_u seg_d2
    rfl
  refine ⟨?_, ?_, ?_, ?_⟩
  · unfold project_point_to_segment
    simp only []
    rw [if_neg hnabs, hu]
    simp only [Bool.false_eq_true, if_false, Prod.mk.injEq]
    constructor <;> ring
  · intro h1
    unfold project_point_to_segment
    simp only []
    rw [if_neg hnabs, hu]
    have hp2 : p2 = (p2.1, p2.2) := rfl
    rw [hp2]
    simp only [if_true, if_pos h1, Prod.mk.injEq]
    constructor <;> ring
  · intro h0
    have h1 : ¬ (proj_u p1 p2 p3 > 1) := by linarith
    unfold project_point_to_segment
    simp only []
    rw [if_neg hnabs, hu]
    have hp1 : p1 = (p1.1, p1.2) := rfl
    rw [hp1]
    simp only [if_true, if_neg h1, if_pos h0, Prod.mk.injEq]
    constructor <;> ring
  · intro h0 h1
    have hgt : ¬ (proj_u p1 p2 p3 > 1) := not_lt.mpr h1
    have hlt : ¬ (proj_u p1 p2 p3 < 0) := not_lt.mpr h0
    unfold project_point_to_segment
    simp only []
    rw [if_neg hnabs, if_neg hnabs, hu]
    simp only [if_true, Bool.false_eq_true, if_false, if_neg hgt, if_neg hlt]

theorem project_point_to_segment_spec_witness :
    (1 : ℚ) / 10000 ≤ seg_d2 ((0 : ℚ), (0 : ℚ)) ((1 : ℚ), (0 : ℚ)) ∧
    project_point_to_segment ((0 : ℚ), (0 : ℚ)) ((1 : ℚ), (0 : ℚ)) ((5 : ℚ), (0 : ℚ)) true
      = ((1 : ℚ), (0 : ℚ)) := by
  have h : (1 : ℚ) / 10000 ≤ seg_d2 ((0 : ℚ), (0 : ℚ)) ((1 : ℚ), (0 : ℚ)) := by
    norm_num [seg_d2]
  exact ⟨h, (project_point_to_segment_spec _ _ _ h).2.1 (by norm_num [proj_u, seg_d2])⟩

/-- C9: degenerate geometry takes the epsilon-guarded branches and yields
defined values everywhere (all embedded functions are total): for
near-coincident segment endpoints (squared length below `0.0001`),
`distance_to_segment` returns the `p1`-to-`p3` distance and
`project_point_to_segment` returns `p1` (for either `in_segment` flag)
instead of dividing by the squared length, and `line_slope_equation`
returns slope `none` when the x-difference is below the epsilon. -/
theorem degenerate_geometry_guards (p1 p2 p3 : ℚ × ℚ) (b : Bool) :
    (|seg_d2 p1 p2| < 1 / 10000 →
      distance_to_segment p1 p2 p3 = hypot (p1.1 - p3.1) (p1.2 - p3.2) ∧
      project_point_to_segment p1 p2 p3 b = p1) ∧
    (|p2.1 - p1.1| < 1 / 10000 → (line_slope_equation p1 p2).1 = none) := by
  constructor
  · intro hguard
    constructor
    · unfold distance_to_segment
      simp only []
      rw [if_pos (by simpa [seg_d2] using hguard)]
    · unfold project_point_to_segment
      simp only []
      rw [if_pos (by simpa [seg_d2] using hguard)]
  · intro hx
    unfold line_slope_equation
    simp only []
    rw [if_pos hx]
    split <;> rfl

theorem degenerate_geometry_guards_witness :
    distance_to_segment ((0 : ℚ), (0 : ℚ)) ((0 : ℚ), (0 : ℚ)) ((3 : ℚ), (4 : ℚ)) = 5 ∧
    project_point_to_segment ((0 : ℚ), (0 : ℚ)) ((0 : ℚ), (0 : ℚ)) ((3 : ℚ), (4 : ℚ)) true
      = ((0 : ℚ), (0 : ℚ)) ∧
    (line_slope_equation ((0 : ℚ), (0 : ℚ)) ((0 : ℚ), (0 : ℚ))).1 = none := by
  have h := degenerate_geometry_guards ((0 : ℚ), (0 : ℚ)) ((0 : ℚ), (0 : ℚ))
    ((3 : ℚ), (4 : ℚ)) true
  have hguard : |seg_d2 ((0 : ℚ), (0 : ℚ)) ((0 : ℚ), (0 : ℚ))| < 1 / 10000 := by
    norm_num [seg_d2]
  have hx : |((0 : ℚ), (0 : ℚ)).1 - ((0 : ℚ), (0 : ℚ)).1| < 1 / 10000 := by
    norm_num
  refine ⟨?_, (h.1 hguard).2, h.2 hx⟩
  · rw [(h.1 hguard).1]
    have h5 := ratSqrt_sq 5 (by norm_num)
    unfold hypot
    rw [show ((0 : ℚ) - 3) * ((0 : ℚ) - 3) + ((0 : ℚ) - 4) * ((0 : ℚ) - 4) = 5 * 5 by norm_num]
    exact h5

/-- C8: `parallel_segments((0,0), (10,0), 1)` returns exactly two segments,
one lying on the line `y = -1` and one on `y = +1`, each spanning `x` from
`0` to `10` — both offset perpendicularly by exactly `1` from the
horizontal centerline. -/
theorem parallel_segments_horizontal_case :
    parallel_segments ((0 : ℚ), (0 : ℚ)) ((10 : ℚ), (0 : ℚ)) 1 =
      [(((0 : ℚ), (-1 : ℚ)), ((10 : ℚ), (-1 : ℚ))),
       (((0 : ℚ), (1 : ℚ)), ((10 : ℚ), (1 : ℚ)))] := by
  norm_num [parallel_segments, rectangle_from_line, perpendicular_points_from_segment,
    is_horizontal_line, near_zero]

/-! ## Zoom (EditableFigure.zoom_in / zoom_out)

`EditableFigure.__init__` sets `zoom_factor = 1.15`, `min_zoom = 0.1`,
`max_zoom = 10.0`, `current_zoom = 1.0`.  Only the `current_zoom` counter
is modelled; the `self.scale(...)` view-transform call has no effect on it. -/

def zoom_factor : ℚ := 115 / 100

def min_zoom : ℚ := 1 / 10

def max_zoom : ℚ := 10

/-- Embeds `EditableFigure.zoom_in`: multiplies `current_zoom` by the factor only
when the result stays below `max_zoom`. -/
def zoom_in (current_zoom : ℚ) : ℚ :=
  if current_zoom * zoom_factor < max_zoom then current_zoom * zoom_factor else current_zoom

/-- Embeds `EditableFigure.zoom_out`: divides `current_zoom` by the factor only
when the result stays above `min_zoom`. -/
def zoom_out (current_zoom : ℚ) : ℚ :=
  if current_zoom / zoom_factor > min_zoom then current_zoom / zoom_factor else current_zoom

/-- A wheel-event sequence: each event triggers `zoom_in` or `zoom_out`. -/
inductive ZoomOp where
  | zoomIn : ZoomOp
  | zoomOut : ZoomOp
deriving DecidableEq, Repr

/-- Applies a sequence of zoom operations to the `current_zoom` state. -/
def apply_zoom_ops (ops : List ZoomOp) (current_zoom : ℚ) : ℚ :=
  match ops with
  | [] => current_zoom
  | op :: rest =>
      apply_zoom_ops rest (match op with
        | ZoomOp.zoomIn => zoom_in current_zoom
        | ZoomOp.zoomOut => zoom_out current_zoom)

lemma zoom_step_bounds (z : ℚ) (h1 : min_zoom < z) (h2 : z < max_zoom) :
    (min_zoom < zoom_in z ∧ zoom_in z < max_zoom) ∧
    (min_zoom < zoom_out z ∧ zoom_out z < max_zoom) := by
  unfold zoom_in zoom_out
  simp only [zoom_factor, min_zoom, max_zoom] at h1 h2 ⊢
  constructor
  · split_ifs with hin
    · constructor
      · nlinarith
      · exact hin
    · exact ⟨h1, h2⟩
  · split_ifs with hout
    · constructor
      · exact hout
      · rw [div_lt_iff₀ (by norm_num)]
        nlinarith
    · exact ⟨h1, h2⟩

lemma apply_zoom_ops_bounds (ops : List ZoomOp) (z : ℚ)
    (h1 : min_zoom < z) (h2 : z < max_zoom) :
    min_zoom < apply_zoom_ops ops z ∧ apply_zoom_ops ops z < max_zoom := by
  induction ops generalizing z with
  | nil => exact ⟨h1, h2⟩
  | cons op rest ih =>
      cases op with
      | zoomIn =>
          have hb := (zoom_step_bounds z h1 h2).1
          exact ih (zoom_in z) hb.1 hb.2
      | zoomOut =>
          have hb := (zoom_step_bounds z h1 h2).2
          exact ih (zoom_out z) hb.1 hb.2

/-- C5: starting from `current_zoom = 1.0` with `min_zoom = 0.1`,
`max_zoom = 10.0` and `zoom_factor = 1.15`, every sequence of `zoom_in()`
and `zoom_out()` calls keeps `current_zoom` within the configured bounds:
it is never pushed above `max_zoom` nor below `min_zoom`. -/
theorem zoom_bounds_invariant (ops : List ZoomOp) :
    min_zoom ≤ apply_zoom_ops ops 1 ∧ apply_zoom_ops ops 1 ≤ max_zoom := by
  have h := apply_zoom_ops_bounds ops 1 (by norm_num [min_zoom]) (by norm_num [max_zoom])
  exact ⟨le_of_lt h.1, le_of_lt h.2⟩

/-! ## Item definitions (Python dicts) and validation

A shape definition is a Python dict from string keys to primitive values;
it is modelled as an association list (`ItemDef`) with Python-dict update
semantics (`setKey`: replace in place, append if missing; `firstVal`:
lookup).  The metadata record for a shape type (`required_properties`,
`editable_properties`, `constructor`, loaded from YAML by an external
collaborator) is modelled as a structure. -/

/-- A primitive value of a shape definition: string, number, point,
or boolean. -/
inductive Val where
  | str : String → Val
  | num : ℚ → Val
  | pt : ℚ × ℚ → Val
  | boolean : Bool → Val
deriving DecidableEq

/-- A shape definition (`item_def`): a Python dict from string keys to
primitive values, in insertion order. -/
abbrev ItemDef := List (String × Val)

/-- Python dict lookup: the value at the first occurrence of key `k`. -/
def firstVal (d : ItemDef) (k : String) : Option Val :=
  match d with
  | [] => none
  | (k1, v1) :: rest => if k1 = k then some v1 else firstVal rest k

/-- Python key-membership test (`k in d`). -/
def hasKey (d : ItemDef) (k : String) : Bool :=
  match d with
  | [] => false
  | (k1, _) :: rest => if k1 = k then true else hasKey rest k

/-- Python dict assignment `d[k] = v`: replaces the value in place when the
key is present, appends otherwise. -/
def setKey (d : ItemDef) (k : String) (v : Val) : ItemDef :=
  match d with
  | [] => [(k, v)]
  | (k1, v1) :: rest => if k1 = k then (k, v) :: rest else (k1, v1) :: setKey rest k v

lemma firstVal_setKey_self (d : ItemDef) (k : String) (v : Val) :
    firstVal (setKey d k v) k = some v := by
  induction d with
  | nil => simp [setKey, firstVal]
  | cons hd tl ih =>
      by_cases hk : hd.1 = k
      · simp [setKey, firstVal, hk]
      · simp [setKey, firstVal, hk, ih]

lemma firstVal_setKey_other (d : ItemDef) (k k2 : String) (v : Val) (hne : k2 ≠ k) :
    firstVal (setKey d k2 v) k = firstVal d k := by
  induction d with
  | nil => simp [setKey, firstVal, hne]
  | cons hd tl ih =>
      by_cases hk : hd.1 = k2
      · simp [setKey, firstVal, hk, hne]
      · simp only [setKey, hk, if_false, firstVal]
        by_cases hk2 : hd.1 = k
        · simp [hk2]
        · simp [hk2, ih]

lemma setKey_of_firstVal (d : ItemDef) (k : String) (v : Val)
    (h : firstVal d k = some v) : setKey d k v = d := by
  induction d with
  | nil => simp [firstVal] at h
  | cons hd tl ih =>
      obtain ⟨k1, v1⟩ := hd
      by_cases hk : k1 = k
      · simp only [firstVal, hk, if_true, Option.some.injEq] at h
        simp [setKey, hk, h]
      · simp only [firstVal, hk, if_false] at h
        simp [setKey, hk, ih h]

/-- Rendering of a primitive value inside `'%s' % value` message
formatting. -/
def reprVal : Val → String
  | Val.str s => s
  | Val.num q => toString q
  | Val.pt p => "[" ++ toString p.1 ++ ", " ++ toString p.2 ++ "]"
  | Val.boolean b => toString b

/-- Rendering of an item definition inside `'%s' % item_def` message
formatting. -/
def reprItemDef (d : ItemDef) : String :=
  "\x7b" ++ String.intercalate ", " (d.map fun kv => kv.1 ++ ": " ++ reprVal kv.2) ++ "\x7d"

/-- Embeds `'%s not present in %s, ignored' % (key, item_def)`. -/
def msg_not_present (key : String) (d : ItemDef) : String :=
  key ++ " not present in " ++ reprItemDef d ++ ", ignored"

/-- Embeds `'%s type is not implemented' % item_type`. -/
def msg_type_not_implemented (t : Val) : String :=
  reprVal t ++ " type is not implemented"

/-- Embeds `'%s constructor name not implemented' % constructor_name`. -/
def msg_constructor_not_implemented (c : String) : String :=
  c ++ " constructor name not implemented"

lemma append_ne_empty_right (a b : String) (hb : b.length ≠ 0) : a ++ b ≠ "" := by
  intro h
  have hlen := congrArg String.length h
  rw [String.length_append] at hlen
  have h0 : ("" : String).length = 0 := rfl
  rw [h0] at hlen
  exact hb (Nat.eq_zero_of_add_eq_zero_left hlen)

lemma msg_not_present_ne_empty (key : String) (d : ItemDef) :
    msg_not_present key d ≠ "" := by
  intro h
  have hlen := congrArg String.length h
  unfold msg_not_present at hlen
  rw [String.length_append, String.length_append, String.length_append] at hlen
  have h9 : (", ignored" : String).length = 9 := rfl
  have h0 : ("" : String).length = 0 := rfl
  rw [h9, h0] at hlen
  omega

lemma msg_type_not_implemented_ne_empty (t : Val) :
    msg_type_not_implemented t ≠ "" := by
  intro h
  have hlen := congrArg String.length h
  unfold msg_type_not_implemented at hlen
  rw [String.length_append] at hlen
  have hs : (" type is not implemented" : String).length = 24 := rfl
  have h0 : ("" : String).length = 0 := rfl
  rw [hs, h0] at hlen
  omega

lemma msg_constructor_not_implemented_ne_empty (c : String) :
    msg_constructor_not_implemented c ≠ "" := by
  intro h
  have hlen := congrArg String.length h
  unfold msg_constructor_not_implemented at hlen
  rw [String.length_append] at hlen
  have hs : (" constructor name not implemented" : String).length = 33 := rfl
  have h0 : ("" : String).length = 0 := rfl
  rw [hs, h0] at hlen
  omega

/-- The metadata record for one shape type (one entry of the YAML-loaded
`items_metadata`); only the fields read by the modelled code paths are
included. -/
structure ItemMetadata where
  type : Val
  required_properties : List String
  constructor : String
deriving DecidableEq

/-- The slice of `EditableFigure` state that validation reads: the
per-type metadata list. -/
structure ViewMetadata where
  items_metadata : List ItemMetadata
deriving DecidableEq

def find_metadata : List ItemMetadata → Val → Option ItemMetadata
  | [], _ => none
  | m :: rest, t => if m.type = t then some m else find_metadata rest t

/-- Embeds `EditableFigure.get_metadata_for_type(item_type)`: the first metadata
entry whose `type` equals the requested one, else `None`. -/
def get_metadata_for_type (view : ViewMetadata) (item_type : Val) : Option ItemMetadata :=
  find_metadata view.items_metadata item_type

/-- The loop body of `check_must_have_properties`: the message of the first
required key missing from the definition, `''` when none is missing. -/
def check_props_loop (item_def : ItemDef) : List String → String
  | [] => ""
  | key :: rest =>
      if hasKey item_def key then check_props_loop item_def rest
      else msg_not_present key item_def

/-- Embeds `check_must_have_properties(item_def, metadata)`. -/
def check_must_have_properties (item_def : ItemDef) (metadata : ItemMetadata) : String :=
  check_props_loop item_def metadata.required_properties

/-- The callables resolvable through `globals()[constructor_name]`: the
scene-item classes defined at module level. -/
def implemented_constructors : List String :=
  ["SceneLine", "SceneCorridor", "SceneCircle", "SceneRectangle"]

/-- Embeds `SceneItem.create(item_def, view)`: validates the definition (missing
`type`, unknown `type`, missing required property, unknown constructor
name) and returns either the created item (modelled by its definition)
with message `''`, or `None` paired with a human-readable message. -/
def SceneItem.create (item_def : ItemDef) (view : ViewMetadata) : Option ItemDef × String :=
  match firstVal item_def "type" with
  | none => (none, msg_not_present "type" item_def)
  | some item_type =>
      match get_metadata_for_type view item_type with
      | none => (none, msg_type_not_implemented item_type)
      | some metadata =>
          let fail_msg := check_must_have_properties item_def metadata
          if fail_msg ≠ "" then (none, fail_msg)
          else if metadata.constructor ∈ implemented_constructors then
            (some item_def, "")
          else
            (none, msg_constructor_not_implemented metadata.constructor)

/-- The wrapper dict around one item definition (`{'item': {...}}`). -/
abbrev OuterItemDef := List (String × ItemDef)

def lookupOuter : OuterItemDef → String → Option ItemDef
  | [], _ => none
  | (k1, v) :: rest, k => if k1 = k then some v else lookupOuter rest k

def reprOuterItemDef (d : OuterItemDef) : String :=
  "\x7b" ++ String.intercalate ", " (d.map fun kv => kv.1 ++ ": " ++ reprItemDef kv.2) ++ "\x7d"

/-- Embeds `EditableFigure.add_item(item_def)`: returns the failure message of the
wrapper check or of `SceneItem.create`, and `''` on success (the created
item is added to the scene, which this message-level model does not
track). -/
def add_item (view : ViewMetadata) (item_def : OuterItemDef) : String :=
  match lookupOuter item_def "item" with
  | none => "Invalid items definition format, item not present in " ++ reprOuterItemDef item_def
  | some inner =>
      match SceneItem.create inner view with
      | (none, msg) => msg
      | (some _, _) => ""

/-- The top-level items dict (`{'items': [wrapper, ...]}`). -/
abbrev ItemsDef := List (String × List OuterItemDef)

def lookupItems : ItemsDef → String → Option (List OuterItemDef)
  | [], _ => none
  | (k1, v) :: rest, k => if k1 = k then some v else lookupItems rest k

def reprItemsDef (d : ItemsDef) : String :=
  "\x7b" ++ String.intercalate ", "
    (d.map fun kv => kv.1 ++ ": [" ++ String.intercalate ", " (kv.2.map reprOuterItemDef) ++ "]")
    ++ "\x7d"

/-- The accumulation loop of `add_items`: collects the nonempty failure
messages of every item, in order. -/
def collect_fails (view : ViewMetadata) : List OuterItemDef → List String
  | [] => []
  | d :: rest =>
      let fail_msg := add_item view d
      if fail_msg ≠ "" then fail_msg :: collect_fails view rest
      else collect_fails view rest

/-- Embeds `EditableFigure.add_items(items_def)`: adds a batch of items, returning
the list of all failure messages (the `points_box` scene-rectangle update
is not modelled). -/
def add_items (view : ViewMetadata) (items_def : ItemsDef) : List String :=
  match lookupItems items_def "items" with
  | none => ["Invalid items definition format, group items not present in " ++ reprItemsDef items_def]
  | some defs => collect_fails view defs

lemma check_props_loop_ne_empty (item_def : ItemDef) (req : List String) (k : String)
    (hk : k ∈ req) (hmiss : hasKey item_def k = false) :
    check_props_loop item_def req ≠ "" := by
  induction req with
  | nil => cases hk
  | cons a rest ih =>
      unfold check_props_loop
      by_cases ha : hasKey item_def a
      · rw [if_pos ha]
        have hka : k ≠ a := by
          intro he
          rw [he] at hmiss
          rw [hmiss] at ha
          cases ha
        exact ih ((List.mem_cons.mp hk).resolve_left hka)
      · rw [if_neg ha]
        exact msg_not_present_ne_empty a item_def

lemma collect_fails_eq_filter (view : ViewMetadata) (items : List OuterItemDef) :
    collect_fails view items = (items.map (add_item view)).filter (fun m => m ≠ "") := by
  induction items with
  | nil => rfl
  | cons d rest ih =>
      unfold collect_fails
      by_cases hd : add_item view d ≠ ""
      · rw [if_pos hd]
        simp [List.filter, hd, ih]
      · rw [if_neg hd]
        push_neg at hd
        simp [List.filter, hd, ih]

/-- C6: `SceneItem.create` returns a null shape paired with a nonempty
human-readable message when the `type` key is missing, when the type has
no metadata entry, or when a metadata-required property is absent; and
`add_items` collects every failure message of a batch into a list rather
than aborting at the first failing item (its result is exactly the
filtered list of the per-item messages, in order). -/
theorem scene_item_validation_spec (view : ViewMetadata) (item_def : ItemDef)
    (items : List OuterItemDef) :
    (firstVal item_def "type" = none →
      (SceneItem.create item_def view).1 = none ∧ (SceneItem.create item_def view).2 ≠ "") ∧
    (∀ t : Val, firstVal item_def "type" = some t → get_metadata_for_type view t = none →
      (SceneItem.create item_def view).1 = none ∧ (SceneItem.create item_def view).2 ≠ "") ∧
    (∀ (t : Val) (m : ItemMetadata) (k : String),
      firstVal item_def "type" = some t → get_metadata_for_type view t = some m →
      k ∈ m.required_properties → hasKey item_def k = false →
      (SceneItem.create item_def view).1 = none ∧ (SceneItem.create item_def view).2 ≠ "") ∧
    add_items view [("items", items)] = (items.map (add_item view)).filter (fun m => m ≠ "") := by
  refine ⟨?_, ?_, ?_, ?_⟩
  · intro h
    simp only [SceneItem.create, h]
    exact ⟨trivial, msg_not_present_ne_empty "type" item_def⟩
  · intro t ht hm
    simp only [SceneItem.create, ht, hm]
    exact ⟨trivial, msg_type_not_implemented_ne_empty t⟩
  · intro t m k ht hm hk hmiss
    have hfail : check_must_have_properties item_def m ≠ "" :=
      check_props_loop_ne_empty item_def m.required_properties k hk hmiss
    simp only [SceneItem.create, ht, hm]
    split_ifs
    exact ⟨rfl, hfail⟩
  · show add_items view [("items", items)] = _
    unfold add_items lookupItems
    rw [if_pos rfl]
    exact collect_fails_eq_filter view items

theorem scene_item_validation_spec_witness :
    (SceneItem.create [] (ViewMetadata.mk [])).1 = none ∧
    (SceneItem.create [] (ViewMetadata.mk [])).2 ≠ "" := by
  have h := scene_item_validation_spec (ViewMetadata.mk []) [] []
  exact h.1 rfl

/-! ## Shape model

Scene items live in canvas-pixel space and own a serializable definition.
`SceneLine` keeps its `QLineF` endpoints, `SceneCircle` the bounding
rectangle of its `QGraphicsEllipseItem`, and `SceneRectangle` the local
rectangle, position and transform of its `QGraphicsRectItem`.  All also
carry the group position `self.pos()` (used when converting back to
meters) and the scale factor captured at construction time.
`SceneCorridor` inherits the geometry, serialization and translation of
`SceneLine` (its dashed center line and border lines are render-only and
not modelled).  The rectangle's `QTransform.rotate` matrix entries
(cosine/sine of the angle in degrees) are irrational for almost every
angle and so have no exact rational values; they are modelled by the
fixed rational stand-ins `cos_deg`/`sin_deg` below, exact at the
axis-aligned angles — every property proved about the rectangle (the
idempotence of its serialization) depends only on the transform being a
deterministic function of the state that `serialize` leaves unmutated,
not on the trigonometric values. -/

/-- A `QRectF` (x, y, width, height). -/
structure RectQ where
  x : ℚ
  y : ℚ
  w : ℚ
  h : ℚ
deriving DecidableEq

/-- State of a `SceneLine` (also the inherited state of a `SceneCorridor`). -/
structure LineState where
  item_def : ItemDef
  p1 : ℚ × ℚ
  p2 : ℚ × ℚ
  pos : ℚ × ℚ
  scale_factor : ℚ
deriving DecidableEq

/-- State of a `SceneCircle`. -/
structure CircleState where
  item_def : ItemDef
  rect : RectQ
  pos : ℚ × ℚ
  scale_factor : ℚ
deriving DecidableEq

/-- Embeds `SceneLine.start_point()`. -/
def SceneLine.start_point (s : LineState) : ℚ × ℚ :=
  pixel_point_to_point s.p1 s.scale_factor s.pos

/-- Embeds `SceneLine.end_point()`. -/
def SceneLine.end_point (s : LineState) : ℚ × ℚ :=
  pixel_point_to_point s.p2 s.scale_factor s.pos

/-- Embeds `SceneLine.update_def_from_scene()`: writes `start` then `end` into the
definition. -/
def SceneLine.update_def_from_scene (s : LineState) : LineState :=
  { s with item_def :=
             setKey (setKey s.item_def "start" (Val.pt (SceneLine.start_point s)))
               "end" (Val.pt (SceneLine.end_point s)) }

/-- Embeds `SceneLine.translate(translation)`: translates both endpoints. -/
def SceneLine.translate (s : LineState) (translation : ℚ × ℚ) : LineState :=
  { s with p1 := translate_pixel_point s.p1 translation,
           p2 := translate_pixel_point s.p2 translation }

/-- Embeds `SceneCircle.center_pixel_point()`: the center of the bounding rect. -/
def SceneCircle.center_pixel_point (s : CircleState) : ℚ × ℚ :=
  (s.rect.x + s.rect.w / 2, s.rect.y + s.rect.h / 2)

/-- Embeds `SceneCircle.radius_pixels()`: half the bounding-rect width. -/
def SceneCircle.radius_pixels (s : CircleState) : ℚ :=
  s.rect.w / 2

/-- Embeds `SceneCircle.center()` in meters. -/
def SceneCircle.center (s : CircleState) : ℚ × ℚ :=
  pixel_point_to_point (SceneCircle.center_pixel_point s) s.scale_factor s.pos

/-- Embeds `SceneCircle.radius()` in meters. -/
def SceneCircle.radius (s : CircleState) : ℚ :=
  de_scale (SceneCircle.radius_pixels s) s.scale_factor

/-- Embeds `SceneCircle.update_def_from_scene()`: writes `center` then `radius`
into the definition. -/
def SceneCircle.update_def_from_scene (s : CircleState) : CircleState :=
  { s with item_def :=
             setKey (setKey s.item_def "center" (Val.pt (SceneCircle.center s)))
               "radius" (Val.num (SceneCircle.radius s)) }

/-- Embeds `SceneCircle.update_size(new_radius)`: recenters the bounding rect on
the current center with the given radius. -/
def SceneCircle.update_size (s : CircleState) (new_radius : ℚ) : CircleState :=
  let center := SceneCircle.center_pixel_point s
  { s with rect := RectQ.mk (center.1 - new_radius) (center.2 - new_radius)
                     (new_radius * 2) (new_radius * 2) }

/-- Embeds `SceneCircle.translate(translation)`: shifts the bounding rect. -/
def SceneCircle.translate (s : CircleState) (translation : ℚ × ℚ) : CircleState :=
  { s with rect := RectQ.mk (s.rect.x + translation.1) (s.rect.y + translation.2)
                     s.rect.w s.rect.h }

/-- Rational stand-in for the cosine of an angle in degrees, as used by
the `QTransform.rotate` matrix: exact at the axis-aligned angles, where
the true cosine is rational; at every other angle the true cosine is
irrational and no rational value is correct — the fixed value `0` keeps
the transform a deterministic function of the angle, which is all the
serialization property proved below depends on. -/
def cos_deg (angle : ℚ) : ℚ :=
  if angle = 0 then 1 else if angle = 90 then 0
  else if angle = 180 then -1 else if angle = 270 then 0 else 0

/-- Rational stand-in for the sine of an angle in degrees (see
`cos_deg`). -/
def sin_deg (angle : ℚ) : ℚ :=
  if angle = 0 then 0 else if angle = 90 then 1
  else if angle = 180 then 0 else if angle = 270 then -1 else 0

/-- Rotation of a vector by an angle in degrees (the `QTransform.rotate`
matrix applied to a point). -/
def rotate_deg (angle : ℚ) (v : ℚ × ℚ) : ℚ × ℚ :=
  (cos_deg angle * v.1 - sin_deg angle * v.2,
   sin_deg angle * v.1 + cos_deg angle * v.2)

/-- State of a `SceneRectangle`: the `QGraphicsRectItem` local rectangle
(set by the constructor and shifted by `translate`), the item position
and the translate–rotate–translate transform set by `get_rectangle`
(both fixed at construction), the `QGraphicsItem` rotation property read
back by `update_def_from_scene` (the source only ever calls
`setTransform`, never `setRotation`, so it keeps its default `0.0`), the
group position, and the scale factor. -/
structure RectangleState where
  item_def : ItemDef
  rect : RectQ
  item_pos : ℚ × ℚ
  transform_center : ℚ × ℚ
  transform_angle : ℚ
  rotation_property : ℚ
  pos : ℚ × ℚ
  scale_factor : ℚ
deriving DecidableEq

/-- Embeds `SceneRectangle.center_pixel_point()`: the local rect center
mapped to the scene through the item's transform
(`translate(c) * rotate(angle) * translate(-c)`, so `c + R(p - c)`)
followed by the item position offset. -/
def SceneRectangle.center_pixel_point (s : RectangleState) : ℚ × ℚ :=
  let local_center := (s.rect.x + s.rect.w / 2, s.rect.y + s.rect.h / 2)
  let v := (local_center.1 - s.transform_center.1, local_center.2 - s.transform_center.2)
  let r := rotate_deg s.transform_angle v
  (s.transform_center.1 + r.1 + s.item_pos.1, s.transform_center.2 + r.2 + s.item_pos.2)

/-- Embeds `SceneRectangle.center()` in meters. -/
def SceneRectangle.center (s : RectangleState) : ℚ × ℚ :=
  pixel_point_to_point (SceneRectangle.center_pixel_point s) s.scale_factor s.pos

/-- Embeds `SceneRectangle.update_def_from_scene()`: writes `center`,
`width`, `height`, then `rotation` into the definition. -/
def SceneRectangle.update_def_from_scene (s : RectangleState) : RectangleState :=
  { s with item_def :=
             setKey (setKey (setKey (setKey s.item_def
                 "center" (Val.pt (SceneRectangle.center s)))
                 "width" (Val.num (de_scale s.rect.w s.scale_factor)))
                 "height" (Val.num (de_scale s.rect.h s.scale_factor)))
               "rotation" (Val.num s.rotation_property) }

/-- Embeds `SceneRectangle.translate(translation)`: shifts the local
rectangle (item position and transform are untouched). -/
def SceneRectangle.translate (s : RectangleState) (translation : ℚ × ℚ) : RectangleState :=
  { s with rect := RectQ.mk (s.rect.x + translation.1) (s.rect.y + translation.2)
                     s.rect.w s.rect.h }

/-- A scene item: `SceneLine`, `SceneCorridor` (inheriting the line
behaviour), `SceneCircle` or `SceneRectangle`. -/
inductive Shape where
  | line : LineState → Shape
  | corridor : LineState → Shape
  | circle : CircleState → Shape
  | rectangle : RectangleState → Shape
deriving DecidableEq

/-- The item definition owned by a shape. -/
def Shape.item_def : Shape → ItemDef
  | Shape.line s => s.item_def
  | Shape.corridor s => s.item_def
  | Shape.circle s => s.item_def
  | Shape.rectangle s => s.item_def

/-- Embeds `update_def_from_scene` dispatched per shape type (`SceneCorridor`
inherits `SceneLine`'s implementation). -/
def Shape.update_def_from_scene : Shape → Shape
  | Shape.line s => Shape.line (SceneLine.update_def_from_scene s)
  | Shape.corridor s => Shape.corridor (SceneLine.update_def_from_scene s)
  | Shape.circle s => Shape.circle (SceneCircle.update_def_from_scene s)
  | Shape.rectangle s => Shape.rectangle (SceneRectangle.update_def_from_scene s)

/-- Embeds `SceneItem.serialize()`: first syncs the definition from the scene,
then returns it; the updated shape state is returned alongside. -/
def Shape.serialize (s : Shape) : ItemDef × Shape :=
  let s2 := Shape.update_def_from_scene s
  (Shape.item_def s2, s2)

/-- Embeds `translate` dispatched per shape type. -/
def Shape.translate : Shape → ℚ × ℚ → Shape
  | Shape.line s, t => Shape.line (SceneLine.translate s t)
  | Shape.corridor s, t => Shape.corridor (SceneLine.translate s t)
  | Shape.circle s, t => Shape.circle (SceneCircle.translate s t)
  | Shape.rectangle s, t => Shape.rectangle (SceneRectangle.translate s t)

/-- Writing the same two values at two distinct keys twice is the same as
writing them once. -/
lemma setKey_two_idem (d : ItemDef) (k1 k2 : String) (v1 v2 : Val) (h : k1 ≠ k2) :
    setKey (setKey (setKey (setKey d k1 v1) k2 v2) k1 v1) k2 v2 =
      setKey (setKey d k1 v1) k2 v2 := by
  have ha : firstVal (setKey (setKey d k1 v1) k2 v2) k1 = some v1 := by
    rw [firstVal_setKey_other _ k1 k2 v2 (Ne.symm h)]
    exact firstVal_setKey_self d k1 v1
  rw [setKey_of_firstVal _ k1 v1 ha]
  exact setKey_of_firstVal _ k2 v2 (firstVal_setKey_self _ k2 v2)

/-- Writing the same four values at four pairwise-distinct keys twice is
the same as writing them once. -/
lemma setKey_four_idem (d : ItemDef) (k1 k2 k3 k4 : String) (v1 v2 v3 v4 : Val)
    (h12 : k1 ≠ k2) (h13 : k1 ≠ k3) (h14 : k1 ≠ k4)
    (h23 : k2 ≠ k3) (h24 : k2 ≠ k4) (h34 : k3 ≠ k4) :
    setKey (setKey (setKey (setKey
        (setKey (setKey (setKey (setKey d k1 v1) k2 v2) k3 v3) k4 v4)
        k1 v1) k2 v2) k3 v3) k4 v4 =
      setKey (setKey (setKey (setKey d k1 v1) k2 v2) k3 v3) k4 v4 := by
  have h1 : firstVal (setKey (setKey (setKey (setKey d k1 v1) k2 v2) k3 v3) k4 v4) k1
      = some v1 := by
    rw [firstVal_setKey_other _ k1 k4 v4 (Ne.symm h14),
        firstVal_setKey_other _ k1 k3 v3 (Ne.symm h13),
        firstVal_setKey_other _ k1 k2 v2 (Ne.symm h12)]
    exact firstVal_setKey_self d k1 v1
  rw [setKey_of_firstVal _ k1 v1 h1]
  have h2 : firstVal (setKey (setKey (setKey (setKey d k1 v1) k2 v2) k3 v3) k4 v4) k2
      = some v2 := by
    rw [firstVal_setKey_other _ k2 k4 v4 (Ne.symm h24),
        firstVal_setKey_other _ k2 k3 v3 (Ne.symm h23)]
    exact firstVal_setKey_self _ k2 v2
  rw [setKey_of_firstVal _ k2 v2 h2]
  have h3 : firstVal (setKey (setKey (setKey (setKey d k1 v1) k2 v2) k3 v3) k4 v4) k3
      = some v3 := by
    rw [firstVal_setKey_other _ k3 k4 v4 (Ne.symm h34)]
    exact firstVal_setKey_self _ k3 v3
  rw [setKey_of_firstVal _ k3 v3 h3]
  exact setKey_of_firstVal _ k4 v4 (firstVal_setKey_self _ k4 v4)

/-- C7: `serialize()` is idempotent — calling it twice in succession with
no intervening mutation yields two identical definition mappings (the
second `update_def_from_scene` rewrites the same keys with the same
values, computed from the untouched scene geometry), for every shape:
line, corridor, circle and rectangle. -/
theorem serialize_idempotent (s : Shape) :
    (Shape.serialize (Shape.serialize s).2).1 = (Shape.serialize s).1 := by
  cases s with
  | line ls =>
      simp only [Shape.serialize, Shape.update_def_from_scene, Shape.item_def,
        SceneLine.update_def_from_scene, SceneLine.start_point, SceneLine.end_point]
      exact setKey_two_idem _ "start" "end" _ _ (by simp)
  | corridor ls =>
      simp only [Shape.serialize, Shape.update_def_from_scene, Shape.item_def,
        SceneLine.update_def_from_scene, SceneLine.start_point, SceneLine.end_point]
      exact setKey_two_idem _ "start" "end" _ _ (by simp)
  | circle cs =>
      simp only [Shape.serialize, Shape.update_def_from_scene, Shape.item_def,
        SceneCircle.update_def_from_scene, SceneCircle.center, SceneCircle.radius,
        SceneCircle.center_pixel_point, SceneCircle.radius_pixels]
      exact setKey_two_idem _ "center" "radius" _ _ (by simp)
  | rectangle rs =>
      simp only [Shape.serialize, Shape.update_def_from_scene, Shape.item_def,
        SceneRectangle.update_def_from_scene, SceneRectangle.center,
        SceneRectangle.center_pixel_point]
      exact setKey_four_idem _ "center" "width" "height" "rotation" _ _ _ _
        (by simp) (by simp) (by simp) (by simp) (by simp) (by simp)

/-! ## Undo commands (C1, C10) -/

/-- Embeds `ChangeSizeCommand.redo()`: `self.item.update_size(self.new_size)`. -/
def ChangeSizeCommand.redo (item : CircleState) (new_size : ℚ) : CircleState :=
  SceneCircle.update_size item new_size

/-- Embeds `ChangeSizeCommand.undo()`: `self.item.update_size(-self.new_size)` —
the previous size is never captured. -/
def ChangeSizeCommand.undo (item : CircleState) (new_size : ℚ) : CircleState :=
  SceneCircle.update_size item (-new_size)

/-- A circle of radius 50 pixels centered at the pixel origin, with
`scale_factor = 100` (radius 0.5 meters). -/
def changeSize_example_circle : CircleState :=
  CircleState.mk
    [("type", Val.str "circle"), ("center", Val.pt (0, 0)), ("radius", Val.num (1 / 2))]
    (RectQ.mk (-50) (-50) 100 100) (0, 0) 100

/-- C1 fails on `ChangeSizeCommand`: `undo()` calls
`update_size(-new_size)` instead of restoring the captured previous size
(none is captured).  On a circle of radius 50 pixels, `redo()` with
`new_size = 30` followed by `undo()` leaves the radius at `-30` pixels —
not the pre-redo 50 — and the serialized definition (radius `-3/10` m)
differs from the pre-redo serialized definition (radius `1/2` m). -/
theorem changeSizeCommand_redo_undo_not_inverse :
    SceneCircle.radius_pixels changeSize_example_circle = 50 ∧
    SceneCircle.radius_pixels (ChangeSizeCommand.redo changeSize_example_circle 30) = 30 ∧
    SceneCircle.radius_pixels
      (ChangeSizeCommand.undo (ChangeSizeCommand.redo changeSize_example_circle 30) 30) = -30 ∧
    firstVal (Shape.serialize (Shape.circle
      (ChangeSizeCommand.undo (ChangeSizeCommand.redo changeSize_example_circle 30) 30))).1
      "radius" = some (Val.num (-3 / 10)) ∧
    firstVal (Shape.serialize (Shape.circle changeSize_example_circle)).1
      "radius" = some (Val.num (1 / 2)) ∧
    (Shape.serialize (Shape.circle
      (ChangeSizeCommand.undo (ChangeSizeCommand.redo changeSize_example_circle 30) 30))).1 ≠
    (Shape.serialize (Shape.circle changeSize_example_circle)).1 := by
  refine ⟨?_, ?_, ?_, ?_, ?_, ?_⟩
  · norm_num [changeSize_example_circle, SceneCircle.radius_pixels]
  · norm_num [changeSize_example_circle, ChangeSizeCommand.redo, SceneCircle.update_size,
      SceneCircle.center_pixel_point, SceneCircle.radius_pixels]
  · norm_num [changeSize_example_circle, ChangeSizeCommand.redo, ChangeSizeCommand.undo,
      SceneCircle.update_size, SceneCircle.center_pixel_point, SceneCircle.radius_pixels]
  · norm_num [changeSize_example_circle, ChangeSizeCommand.redo, ChangeSizeCommand.undo,
      SceneCircle.update_size, SceneCircle.center_pixel_point, SceneCircle.radius_pixels,
      Shape.serialize, Shape.update_def_from_scene, Shape.item_def,
      SceneCircle.update_def_from_scene, SceneCircle.center, SceneCircle.radius,
      pixel_point_to_point, de_scale, setKey, firstVal]
    simp
  · norm_num [changeSize_example_circle,
      Shape.serialize, Shape.update_def_from_scene, Shape.item_def,
      SceneCircle.update_def_from_scene, SceneCircle.center, SceneCircle.radius,
      SceneCircle.center_pixel_point, SceneCircle.radius_pixels,
      pixel_point_to_point, de_scale, setKey, firstVal]
    simp
  · intro heq
    have h1 : firstVal (Shape.serialize (Shape.circle
        (ChangeSizeCommand.undo (ChangeSizeCommand.redo changeSize_example_circle 30) 30))).1
        "radius" = some (Val.num (-3 / 10)) := by
      norm_num [changeSize_example_circle, ChangeSizeCommand.redo, ChangeSizeCommand.undo,
        SceneCircle.update_size, SceneCircle.center_pixel_point, SceneCircle.radius_pixels,
        Shape.serialize, Shape.update_def_from_scene, Shape.item_def,
        SceneCircle.update_def_from_scene, SceneCircle.center, SceneCircle.radius,
        pixel_point_to_point, de_scale, setKey, firstVal]
      simp
    have h2 : firstVal (Shape.serialize (Shape.circle changeSize_example_circle)).1
        "radius" = some (Val.num (1 / 2)) := by
      norm_num [changeSize_example_circle,
        Shape.serialize, Shape.update_def_from_scene, Shape.item_def,
        SceneCircle.update_def_from_scene, SceneCircle.center, SceneCircle.radius,
        SceneCircle.center_pixel_point, SceneCircle.radius_pixels,
        pixel_point_to_point, de_scale, setKey, firstVal]
      simp
    rw [heq, h2] at h1
    simp only [Option.some.injEq, Val.num.injEq] at h1
    norm_num at h1

/-- The record pushed onto the undo stack by a paste: the
`CopyPasteCommand` with its source, paste position, and the clone created
by its `redo()`. -/
structure CopyPasteRecord where
  item : Shape
  pos : ℚ × ℚ
  new_item : Shape
deriving DecidableEq

/-- The slice of `EditableFigure` state touched by copy/paste: the scene's
item collection, the undo stack (paste pushes only, which is the only
command kind on this code path), and the copy buffer. -/
structure FigState where
  scene_items : List Shape
  undo_stack : List CopyPasteRecord
  copy_buffer : Option Shape
deriving DecidableEq

/-- Embeds `SceneItem.clone()`: reconstructs a shape from a deep copy of its
serialized definition; in exact arithmetic the reconstruction reproduces
the serialized state (definition synced, geometry unchanged). -/
def SceneItem.clone (s : Shape) : Shape :=
  (Shape.serialize s).2

/-- Embeds `EditableFigure.add_ui_command(CopyPasteCommand(...))`: pushing onto
the `QUndoStack` executes the command's `redo()` — clone the source,
translate it to the paste position, add it to the scene — and records the
command. -/
def add_ui_command (fig : FigState) (item : Shape) (pos : ℚ × ℚ) : FigState :=
  let new_item := Shape.translate (SceneItem.clone item) pos
  FigState.mk (new_item :: fig.scene_items)
    (fig.undo_stack ++ [CopyPasteRecord.mk item pos new_item])
    fig.copy_buffer

/-- Embeds `EditableFigure.paste_item(scene_pos)`: returns immediately when the
copy buffer is empty, otherwise pushes a `CopyPasteCommand`. -/
def paste_item (fig : FigState) (scene_pos : ℚ × ℚ) : FigState :=
  match fig.copy_buffer with
  | none => fig
  | some item => add_ui_command fig item scene_pos

/-- C10: a paste attempt with an empty copy buffer constructs and pushes
no command — the scene's item collection, the undo stack and the whole
figure state are unchanged. -/
theorem paste_item_empty_buffer_noop (fig : FigState) (scene_pos : ℚ × ℚ)
    (h : fig.copy_buffer = none) :
    paste_item fig scene_pos = fig := by
  unfold paste_item
  rw [h]

theorem paste_item_empty_buffer_noop_witness :
    paste_item (FigState.mk [] [] none) (1, 2) = FigState.mk [] [] none :=
  paste_item_empty_buffer_noop (FigState.mk [] [] none) (1, 2) rfl

end WinDeklar
